import Mathlib

/-!
Verification of the snowbanker threshold strategy engine
(`src/strats/thresh.py`, helpers in `src/sbi/utils.py`).

The embedding is shallow:

* Python floats are modelled as exact rationals (`ℚ`); Python `round(x, 2)`
  is modelled as exact round-half-to-even at two decimals.
* Time instants (`datetime` values) are modelled as integer epoch seconds.
* JSON documents are modelled by the inductive `JVal`; a JSON object is an
  association list of string keys (Python `dict` insertion order).
* The filesystem is an association list from paths to file contents; a file
  content is `Option JVal`: `some j` stands for text that `json.loads`
  parses to `j`, `none` for text that fails to parse (`json_try_loads`
  returning `None`).  Real file I/O errors other than a missing file are not
  modelled.
* Python code paths that raise an uncaught exception are modelled by the
  explicit outcome `Decision.raise`.

`sbi/asset.py` and `sbi/api.py` are not part of the sources; the
definitions for `PriceDataPoint`, `Asset`, and their JSON forms are
modelled from the spec (each such definition says so in its doc comment).
Everything else is translated from `thresh.py` / `utils.py`.
-/

/-- A JSON value.  Python's `json.loads` distinguishes `int` from `float`,
and `utils.json_check_keys` compares `type(...)` exactly, so integer and
non-integer numbers are separate constructors. -/
inductive JVal where
  | jnull
  | jbool (b : Bool)
  | jint (n : ℤ)
  | jnum (q : ℚ)
  | jstr (s : String)
  | jarr (l : List JVal)
  | jobj (l : List (String × JVal))

/-- The Python runtime type tag of a JSON value, as `utils.json_check_keys`
sees it via `type(jdata[key])`. -/
inductive JTy where
  | null | bool | int | num | str | arr | obj
deriving DecidableEq

/-- Runtime type of a JSON value (`type(...)` in Python). -/
def JVal.ty : JVal → JTy
  | .jnull => .null
  | .jbool _ => .bool
  | .jint _ => .int
  | .jnum _ => .num
  | .jstr _ => .str
  | .jarr _ => .arr
  | .jobj _ => .obj

/-- Key lookup in a JSON object (`jdata[key]` / `key in jdata`), first
match in the association list. -/
def objGet (l : List (String × JVal)) (k : String) : Option JVal :=
  Option.map Prod.snd (l.find? (fun p => p.1 == k))

/-- Embeds `utils.json_check_keys`: every expected key must be present and
its value must have exactly the expected runtime type. -/
def json_check_keys (l : List (String × JVal)) (expected : List (String × JTy)) : Bool :=
  expected.all (fun e =>
    match objGet l e.1 with
    | some v => v.ty == e.2
    | none => false)

/-! ### Decimal codec for instants

`PriceDataPoint` serialization is in the missing `sbi/asset.py`; the spec
gives the shape `"timestamp": str` but not the string format.  Modelled
from the spec: instants are integer epoch seconds rendered in decimal and
parsed back. -/

/-- The decimal digit character for `d < 10`. -/
def digitChar (d : ℕ) : Char := Char.ofNat (48 + d)

/-- Parse a decimal digit character, `none` for anything else. -/
def charDigit (c : Char) : Option ℕ :=
  if 48 ≤ c.toNat ∧ c.toNat ≤ 57 then some (c.toNat - 48) else none

/-- Big-endian decimal digits of a natural number (never empty). -/
def natToChars (n : ℕ) : List Char :=
  if _h : n < 10 then [digitChar n]
  else natToChars (n / 10) ++ [digitChar (n % 10)]
decreasing_by exact Nat.div_lt_self (by omega) (by omega)

/-- Fold decimal digit characters onto an accumulator; `none` on the first
non-digit character. -/
def charsToNatAux (acc : ℕ) : List Char → Option ℕ
  | [] => some acc
  | c :: cs =>
    match charDigit c with
    | some d => charsToNatAux (acc * 10 + d) cs
    | none => none

/-- Parse a nonempty string of decimal digit characters. -/
def charsToNat : List Char → Option ℕ
  | [] => none
  | c :: cs => charsToNatAux 0 (c :: cs)

/-- Modelled from the spec: render an instant (integer epoch seconds) as
the decimal string stored in the `"timestamp": str` JSON field. -/
def instantToStr (i : ℤ) : String :=
  if i < 0 then String.mk ('-' :: natToChars i.natAbs)
  else String.mk (natToChars i.natAbs)

/-- Modelled from the spec: parse the decimal `"timestamp"` string back to
an instant; `none` on a malformed string. -/
def strToInstant (s : String) : Option ℤ :=
  match s.data with
  | [] => none
  | c :: rest =>
    if c = '-' then Option.map (fun n => -(n : ℤ)) (charsToNat rest)
    else Option.map (fun n => (n : ℤ)) (charsToNat (c :: rest))

/-! ### Price data points and assets (modelled from the spec) -/

/-- Modelled from the spec (`sbi/asset.py` is not in the sources):
`PriceDataPoint` is `price: float, timestamp: instant, quantity: float
(default 1.0)`, immutable. -/
structure PriceDataPoint where
  price : ℚ
  timestamp : ℤ
  quantity : ℚ
deriving DecidableEq

/-- Modelled from the spec: `value() = price × quantity`. -/
def PriceDataPoint.value (p : PriceDataPoint) : ℚ := p.price * p.quantity

/-- Modelled from the spec: `timestamp_total_seconds()` of a price data
point, in integer epoch seconds. -/
def PriceDataPoint.timestamp_total_seconds (p : PriceDataPoint) : ℤ := p.timestamp

/-- Modelled from the spec: a price data point serializes to the JSON
object shape given in §6 of the spec. -/
def PriceDataPoint.json_make (p : PriceDataPoint) : JVal :=
  .jobj [("price", .jnum p.price),
         ("timestamp", .jstr (instantToStr p.timestamp)),
         ("quantity", .jnum p.quantity)]

/-- Modelled from the spec: parse a price data point from JSON, `none` on
a missing or mistyped key or a malformed timestamp string. -/
def PriceDataPoint.json_parse : JVal → Option PriceDataPoint
  | .jobj l =>
    match objGet l "price", objGet l "timestamp", objGet l "quantity" with
    | some (.jnum pr), some (.jstr ts), some (.jnum q) =>
      Option.map (fun i => ⟨pr, i, q⟩) (strToInstant ts)
    | _, _, _ => none
  | _ => none

/-- Modelled from the spec: an asset snapshot is a symbol, a display name,
a held quantity, and an ordered price history. -/
structure Asset where
  symbol : String
  name : String
  quantity : ℚ
  phistory : List PriceDataPoint
deriving DecidableEq

/-- Modelled from the spec: the price data point of minimal `value()` in
the price history, `none` when the history is empty. -/
def Asset.phistory_min (a : Asset) : Option PriceDataPoint :=
  a.phistory.foldl
    (fun acc p =>
      match acc with
      | none => some p
      | some q => if p.value < q.value then some p else some q)
    none

/-- Modelled from the spec: the price data point of maximal `value()` in
the price history, `none` when the history is empty. -/
def Asset.phistory_max (a : Asset) : Option PriceDataPoint :=
  a.phistory.foldl
    (fun acc p =>
      match acc with
      | none => some p
      | some q => if p.value > q.value then some p else some q)
    none

/-- Modelled from the spec: the most recent price data point, `none` when
the history is empty. -/
def Asset.phistory_latest (a : Asset) : Option PriceDataPoint :=
  a.phistory.getLast?

/-- Modelled from the spec (§6 file format): the JSON fields of an asset.
Kept as a field list so that `AssetData.json_make` can extend the object
the way `thresh.py` adds keys to the asset's dict. -/
def Asset.json_fields (a : Asset) : List (String × JVal) :=
  [("symbol", .jstr a.symbol),
   ("name", .jstr a.name),
   ("quantity", .jnum a.quantity),
   ("phistory", .jarr (a.phistory.map PriceDataPoint.json_make))]

/-- Modelled from the spec: `Asset.json_make` returns the JSON object of
`Asset.json_fields`. -/
def Asset.json_make (a : Asset) : JVal := .jobj a.json_fields

/-- Python `x == None` on a JSON value. -/
def JVal.isNull : JVal → Bool
  | .jnull => true
  | _ => false

/-- Parse a homogeneous list of price data points the way the `thistory`
loop of `AssetData.json_parse` does: `null` entries are skipped
(`continue`), any other entry that fails to parse fails the whole list. -/
def parsePdpList : List JVal → Option (List PriceDataPoint)
  | [] => some []
  | v :: rest =>
    if v.isNull then parsePdpList rest
    else
      match PriceDataPoint.json_parse v with
      | some p => Option.map (fun ps => p :: ps) (parsePdpList rest)
      | none => none

/-- Modelled from the spec: parse an asset snapshot from JSON, checking
the §6 keys and parsing every price-history entry. -/
def Asset.json_parse : JVal → Option Asset
  | .jobj l =>
    match objGet l "symbol", objGet l "name", objGet l "quantity", objGet l "phistory" with
    | some (.jstr s), some (.jstr n), some (.jnum q), some (.jarr ph) =>
      Option.map (fun ps => ⟨s, n, q, ps⟩) (parsePdpList ph)
    | _, _, _, _ => none
  | _ => none

/-! ### Asset data (translated from `thresh.py`) -/

/-- Embeds `AssetMode`: UNKNOWN = -1, WATCH = 0, HOLD = 1. -/
inductive AssetMode where
  | UNKNOWN | WATCH | HOLD
deriving DecidableEq

/-- The integer value of a mode (`mode.value` in Python). -/
def AssetMode.value : AssetMode → ℤ
  | .UNKNOWN => -1
  | .WATCH => 0
  | .HOLD => 1

/-- The mode for an integer value (`AssetMode(n)`); `none` where Python's
enum constructor would raise `ValueError`. -/
def AssetMode.ofValue : ℤ → Option AssetMode
  | -1 => some .UNKNOWN
  | 0 => some .WATCH
  | 1 => some .HOLD
  | _ => none

/-- Embeds `AssetData`: an asset plus the strategy's mode and transaction
history. -/
structure AssetData where
  asset : Asset
  mode : AssetMode
  thistory : List PriceDataPoint
deriving DecidableEq

/-- Embeds the `AssetData` constructor: mode starts UNKNOWN, transaction
history starts empty. -/
def AssetData.make (a : Asset) : AssetData := ⟨a, .UNKNOWN, []⟩

/-- Embeds `AssetData.thistory_append`. -/
def AssetData.thistory_append (ad : AssetData) (p : PriceDataPoint) : AssetData :=
  ⟨ad.asset, ad.mode, ad.thistory ++ [p]⟩

/-- Embeds `AssetData.thistory_latest`: the last transaction, `none` when
there is none. -/
def AssetData.thistory_latest (ad : AssetData) : Option PriceDataPoint :=
  ad.thistory.getLast?

/-- Embeds `AssetData.json_make`: the asset's JSON object extended with
the `mode` and `thistory` keys. -/
def AssetData.json_make (ad : AssetData) : JVal :=
  .jobj (ad.asset.json_fields ++
    [("mode", .jint ad.mode.value),
     ("thistory", .jarr (ad.thistory.map PriceDataPoint.json_make))])

/-- The outcome of running a piece of Python code that may raise an
uncaught exception: a normal return value, or a raised exception carrying
its message. -/
inductive PyResult (α : Type) where
  | ok (a : α)
  | raise (msg : String)
deriving DecidableEq

/-- Embeds `AssetData.json_parse`: parse the asset, check the `mode`
(int) and `thistory` (list) keys, convert the mode, and parse every
transaction entry (skipping `null`s).  Returning `None` in Python is
`.ok none`.  A well-typed integer mode outside the enum values makes
Python's `AssetMode(...)` at line 104 raise an uncaught `ValueError`,
modelled as `.raise`. -/
def AssetData.json_parse : JVal → PyResult (Option AssetData)
  | .jobj l =>
    match Asset.json_parse (.jobj l) with
    | none => .ok none
    | some a =>
      if json_check_keys l [("mode", JTy.int), ("thistory", JTy.arr)] then
        match objGet l "mode", objGet l "thistory" with
        | some (.jint m), some (.jarr th) =>
          match AssetMode.ofValue m with
          | some md => .ok (Option.map (fun ts => ⟨a, md, ts⟩) (parsePdpList th))
          | none => .raise "ValueError: invalid AssetMode value"
        | _, _ => .ok none
      else .ok none
  | _ => .ok none

/-! ### Internal results and files (translated from `utils.py`) -/

/-- Embeds `utils.IR`: a success flag, a human-readable message, and an
optional data payload. -/
structure IR (α : Type) where
  success : Bool
  message : String
  data : Option α
deriving DecidableEq

/-- Embeds `utils.str_to_fname`: whitespace runs become `_` (Python
`"_".join(string.split())`), path separators become `-`, and a nonempty
extension is appended after a dot. -/
def str_to_fname (s : String) (extension : String) : String :=
  let fname := String.intercalate "_" ((s.split Char.isWhitespace).filter (fun t => t ≠ ""))
  let fname := (fname.replace "/" "-").replace "\\" "-"
  if extension = "" then fname else fname ++ "." ++ extension

/-- Embeds `symbol_to_asset_fname`.  `String.toLower` lower-cases ASCII
letters, which covers Python `str.lower()` on the symbol names in use. -/
def symbol_to_asset_fname (name : String) : String :=
  str_to_fname ("asset_" ++ name.toLower) "json"

/-- `os.path.join` for the POSIX paths in use (directory without a
trailing separator). -/
def path_join (dpath fname : String) : String := dpath ++ "/" ++ fname

/-- The full path of a symbol's asset file. -/
def asset_fpath (symbol dpath : String) : String :=
  path_join dpath (symbol_to_asset_fname symbol)

/-- The filesystem model: an association list from paths to file
contents.  A content of `none` is a file whose text fails JSON parsing;
`some j` is a file whose text parses to `j`. -/
def FS : Type := List (String × Option JVal)

/-- Read the content at a path; `none` when no file exists there. -/
def fsGet (fs : FS) (p : String) : Option (Option JVal) :=
  Option.map Prod.snd (List.find? (fun e => e.1 == p) fs)

/-- Write (create or overwrite) the content at a path. -/
def fsSet (fs : FS) (p : String) (v : Option JVal) : FS :=
  match fs with
  | [] => [(p, v)]
  | e :: rest => if e.1 == p then (p, v) :: rest else e :: fsSet rest p v

/-- Embeds `AssetData.load`: read the file (`utils.file_read_all`), parse
the text as JSON (`utils.json_try_loads`), then parse the JSON as an
`AssetData`; each stage that fails yields `IR(False, msg)` with the
message of `thresh.py`.  A `ValueError` raised inside `json_parse` is
uncaught in `load` and propagates. -/
def AssetData.load (symbol dpath : String) (fs : FS) : PyResult (IR AssetData) :=
  let fpath := asset_fpath symbol dpath
  match fsGet fs fpath with
  | none => .ok ⟨false, "failed to read from file (" ++ fpath ++ ")", none⟩
  | some none => .ok ⟨false, "failed to parse JSON data from file: " ++ fpath, none⟩
  | some (some j) =>
    match AssetData.json_parse j with
    | .raise msg => .raise msg
    | .ok none => .ok ⟨false, "failed to parse AssetData from file: " ++ fpath, none⟩
    | .ok (some ad) => .ok ⟨true, "", some ad⟩

/-- Embeds `AssetData.save`: serialize with `json_make` and overwrite the
symbol's file (write failures are outside the model, matching the spec's
scope for this layer). -/
def AssetData.save (ad : AssetData) (dpath : String) (fs : FS) : FS :=
  fsSet fs (asset_fpath ad.asset.symbol dpath) (some ad.json_make)

/-! ### The strategy tick (translated from `TStrat` in `thresh.py`) -/

/-- The strategy configuration: the module globals `base_buy`,
`thresh_buy`, `thresh_sell`, `order_cooldown` of `thresh.py`. -/
structure Config where
  base_buy : ℚ
  thresh_buy : ℚ
  thresh_sell : ℚ
  order_cooldown : ℤ
deriving DecidableEq

/-- Python `max` on two floats (computable form of `max` on `ℚ`). -/
def pymax (a b : ℚ) : ℚ := if a < b then b else a

/-- Python `min` on two floats (computable form of `min` on `ℚ`). -/
def pymin (a b : ℚ) : ℚ := if b < a then b else a

/-- The floor of a rational, in the computable form `q.num / q.den`
(equal to `⌊q⌋` by `Rat.floor_def`). -/
def floorQ (q : ℚ) : ℤ := q.num / q.den

/-- Round-half-to-even to an integer, following Python's `round`. -/
def roundHalfEven (q : ℚ) : ℤ :=
  if q - floorQ q < 1/2 then floorQ q
  else if q - floorQ q > 1/2 then floorQ q + 1
  else if floorQ q % 2 = 0 then floorQ q else floorQ q + 1

/-- Python `round(x, 2)`: round-half-to-even at two decimal places. -/
def round2 (q : ℚ) : ℚ := (roundHalfEven (q * 100) : ℚ) / 100

/-- Embeds the `percent_to_max` computation of the tick (lines 221-225):
the position of `curr` in the recorded `[mn, mx]` range, `0.0` when the
range is degenerate. -/
def percent_to_max (mn mx curr : ℚ) : ℚ :=
  if mx ≠ mn then (curr - mn) / (mx - mn) else 0

/-- The tick-local outcome for one asset.  `raise` marks a code path on
which the Python tick raises an uncaught exception. -/
inductive Decision where
  | raise (msg : String)
  | skipCooldown
  | buy (amount : ℚ)
  | sell (amount : ℚ)
  | holdSmallSell
  | hold
  | noAction
deriving DecidableEq

/-- Whether the outcome places an order. -/
def Decision.isOrder : Decision → Bool
  | .buy _ => true
  | .sell _ => true
  | _ => false

/-- Whether the outcome is a decision of the strategy (reached the
decision stage), as opposed to a cooldown skip or a raised exception. -/
def Decision.isDecision : Decision → Bool
  | .raise _ => false
  | .skipCooldown => false
  | _ => true

/-- Embeds line 196 of `thresh.py`:
`no_history = amin == None or amax == None or acurr == None`. -/
def AssetData.no_history (ad : AssetData) : Bool :=
  ad.asset.phistory_min.isNone || ad.asset.phistory_max.isNone ||
    ad.asset.phistory_latest.isNone

/-- Embeds the `percent_to_max` assignment of the tick: `0.0`, replaced
by the range position when there is history and the range is not
degenerate. -/
def AssetData.ptm (ad : AssetData) (acurr : PriceDataPoint) : ℚ :=
  if ad.no_history then 0
  else
    match ad.asset.phistory_min, ad.asset.phistory_max with
    | some amin, some amax => percent_to_max amin.value amax.value acurr.value
    | _, _ => 0

/-- Embeds the decision stage of the tick (lines 240-294): bootstrap buy
when holding nothing, threshold buy, threshold sell with cent rounding
and dust suppression, else hold. -/
def decide_action (cfg : Config) (ad : AssetData) (acurr : PriceDataPoint)
    (ptm : ℚ) : Decision :=
  if ad.asset.quantity ≤ 0 then
    if ad.no_history = true ∨ ad.asset.quantity = 0 then Decision.buy 1
    else Decision.noAction
  else
    if ptm ≤ 1/2 - cfg.thresh_buy then
      Decision.buy (pymax 1 ((1 - ptm / (1/2 - cfg.thresh_buy)) * cfg.base_buy))
    else
      if ptm ≥ 1/2 + cfg.thresh_sell then
        let sell_amount := pymin (acurr.value * ad.asset.quantity)
          ((ptm - (1/2 + cfg.thresh_sell)) / (1 - (1/2 + cfg.thresh_sell)) * cfg.base_buy)
        let sell_amount := pymax 0 (round2 (sell_amount - 1))
        if sell_amount = 0 then Decision.holdSmallSell
        else Decision.sell sell_amount
      else Decision.hold

/-- Embeds one iteration of the per-asset loop of `TStrat.tick` (lines
186-294).  The unconditional `vsum += acurr.value() * ad.asset.quantity`
at line 199 dereferences `None` whenever the price history is empty, so
that path is a `raise`.  Then: cooldown gate, position ratio, decision. -/
def stepAsset (cfg : Config) (now : ℤ) (ad : AssetData) : Decision :=
  match ad.asset.phistory_latest with
  | none => .raise "AttributeError: NoneType object has no attribute value"
  | some acurr =>
    let cooldown_hit : Bool :=
      match ad.thistory_latest with
      | some ltran => now - ltran.timestamp_total_seconds < cfg.order_cooldown
      | none => false
    if cooldown_hit then .skipCooldown
    else decide_action cfg ad acurr (ad.ptm acurr)

/-! ### Order placement and asset retrieval (translated from `thresh.py`) -/

/-- The fill returned by `api.send_order`: realized dollar value,
realized quantity, and an identifier. -/
structure Fill where
  value : ℚ
  quantity : ℚ
  id : String
deriving DecidableEq

/-- Embeds `TStrat.place_order`.  `apiRes` is the result of
`self.api.send_order(order)`; on failure the function logs and returns
`None` leaving the asset data and the disk untouched; on success it
appends the fill (average price = value / quantity, timestamp = now) to
the transaction history and saves.  A successful API result always
carries a fill; the `some f` match mirrors that. -/
def place_order (wd : String) (apiRes : IR Fill) (now : ℤ) (ad : AssetData)
    (fs : FS) : Option Fill × AssetData × FS :=
  if apiRes.success = false then (none, ad, fs)
  else
    match apiRes.data with
    | some f =>
      let pdp : PriceDataPoint := ⟨f.value / f.quantity, now, f.quantity⟩
      let ad2 := ad.thistory_append pdp
      (some f, ad2, ad2.save wd fs)
    | none => (none, ad, fs)

/-- Embeds the body of the per-symbol loop of `TStrat.retrieve_assets`
(lines 340-362) after the `load` call returned normally with result
`res`: keep the loaded asset data only on success, search the account
snapshot, merge quantity and newest price point into a loaded asset data,
or build a fresh one (fresh `Asset(sym, sym, 0.0)` when the account lacks
the symbol), then save.  `phistory_append(a.phistory_latest())` appends
the snapshot's latest point when it has one. -/
def retrieve_body (wd : String) (assets : List Asset) (fs : FS)
    (sym : String) (res : IR AssetData) : AssetData × FS :=
  let ad0 : Option AssetData := if res.success then res.data else none
  let a0 := assets.find? (fun a => a.symbol == sym)
  let ad1 : AssetData :=
    match ad0, a0 with
    | some ad, some a =>
      ⟨⟨ad.asset.symbol, ad.asset.name, a.quantity,
        ad.asset.phistory ++ a.phistory_latest.toList⟩, ad.mode, ad.thistory⟩
    | some ad, none => ad
    | none, some a => AssetData.make a
    | none, none => AssetData.make ⟨sym, sym, 0, []⟩
  (ad1, ad1.save wd fs)

/-- Embeds the loop-body call: a `ValueError` raised inside `load` is
uncaught in `retrieve_assets`, so processing stops before anything is
saved for the symbol and the exception propagates. -/
def retrieve_one (wd : String) (assets : List Asset) (fs : FS)
    (sym : String) : PyResult (AssetData × FS) :=
  match AssetData.load sym wd fs with
  | .raise msg => .raise msg
  | .ok res => .ok (retrieve_body wd assets fs sym res)

/-- The per-symbol loop of `retrieve_assets`, threading the filesystem
through the saves and propagating a raised exception. -/
def retrieve_loop (wd : String) (assets : List Asset) :
    List String → List AssetData × FS → PyResult (List AssetData × FS)
  | [], acc => .ok acc
  | sym :: rest, acc =>
    match retrieve_one wd assets acc.2 sym with
    | .raise msg => .raise msg
    | .ok r => retrieve_loop wd assets rest (acc.1 ++ [r.1], r.2)

/-- Embeds `TStrat.retrieve_assets`: propagate an account-API failure,
filter the snapshot to the tracked symbols, then run the per-symbol loop;
an exception raised while loading a symbol's file aborts the whole call. -/
def retrieve_assets (wd : String) (symbols : List String)
    (apiRes : IR (List Asset)) (fs : FS) : PyResult (IR (List AssetData) × FS) :=
  if apiRes.success = false then .ok (⟨false, apiRes.message, none⟩, fs)
  else
    let assets := (apiRes.data.getD []).filter (fun a => symbols.contains a.symbol)
    match retrieve_loop wd assets symbols ([], fs) with
    | .raise msg => .raise msg
    | .ok result => .ok (⟨true, "", some result.1⟩, result.2)

/-! ### Helper lemmas -/

theorem pymax_eq (a b : ℚ) : pymax a b = max a b := by
  simp only [pymax, max_def]
  rcases lt_trichotomy a b with h | h | h
  · simp [h, le_of_lt h]
  · simp [h]
  · simp [not_lt_of_lt h, not_le_of_lt h]

theorem pymin_eq (a b : ℚ) : pymin a b = min a b := by
  simp only [pymin, min_def]
  rcases lt_trichotomy a b with h | h | h
  · simp [not_lt_of_lt h, le_of_lt h]
  · simp [h]
  · simp [h, not_le_of_lt h]

theorem floorQ_eq (q : ℚ) : floorQ q = ⌊q⌋ := (Rat.floor_def).symm

/-- Round-half-to-even overshoots by at most one half. -/
theorem roundHalfEven_le (q : ℚ) : (roundHalfEven q : ℚ) ≤ q + 1/2 := by
  have hfl : (floorQ q : ℚ) ≤ q := by rw [floorQ_eq]; exact Int.floor_le q
  unfold roundHalfEven
  split_ifs with h1 h2 h3 <;> push_cast <;> linarith

/-- Python `round(x, 2)` overshoots by at most half a cent. -/
theorem round2_le (q : ℚ) : round2 q ≤ q + 1/200 := by
  unfold round2
  have h := roundHalfEven_le (q * 100)
  rw [div_le_iff₀ (by norm_num : (0:ℚ) < 100)]
  linarith

/-- A fold whose step never returns `none` keeps a `some` accumulator. -/
theorem foldl_optmin_some (f : Option PriceDataPoint → PriceDataPoint → Option PriceDataPoint)
    (hf : ∀ acc p, ∃ r, f acc p = some r)
    (l : List PriceDataPoint) (init : PriceDataPoint) :
    ∃ r, l.foldl f (some init) = some r := by
  induction l generalizing init with
  | nil => exact ⟨init, rfl⟩
  | cons q rest ih =>
    obtain ⟨r, hr⟩ := hf (some init) q
    simpa [hr] using ih r

theorem phistory_min_isSome (a : Asset) (h : a.phistory ≠ []) :
    ∃ p, a.phistory_min = some p := by
  unfold Asset.phistory_min
  rcases hl : a.phistory with _ | ⟨q, rest⟩
  · exact absurd hl h
  · simp only [List.foldl_cons]
    exact foldl_optmin_some _
      (fun acc p => by
        cases acc with
        | none => exact ⟨p, rfl⟩
        | some m => by_cases hc : p.value < m.value <;> simp [hc]) rest q

theorem phistory_max_isSome (a : Asset) (h : a.phistory ≠ []) :
    ∃ p, a.phistory_max = some p := by
  unfold Asset.phistory_max
  rcases hl : a.phistory with _ | ⟨q, rest⟩
  · exact absurd hl h
  · simp only [List.foldl_cons]
    exact foldl_optmin_some _
      (fun acc p => by
        cases acc with
        | none => exact ⟨p, rfl⟩
        | some m => by_cases hc : p.value > m.value <;> simp [hc]) rest q

theorem phistory_latest_isSome (a : Asset) (h : a.phistory ≠ []) :
    ∃ p, a.phistory_latest = some p := by
  unfold Asset.phistory_latest
  rcases hl : a.phistory.getLast? with _ | p
  · exact absurd (List.getLast?_eq_none_iff.mp hl) h
  · exact ⟨p, rfl⟩

/-- With a nonempty price history, `no_history` is false. -/
theorem no_history_false (ad : AssetData) (h : ad.asset.phistory ≠ []) :
    ad.no_history = false := by
  obtain ⟨pmin, hmin⟩ := phistory_min_isSome ad.asset h
  obtain ⟨pmax, hmax⟩ := phistory_max_isSome ad.asset h
  obtain ⟨pl, hl⟩ := phistory_latest_isSome ad.asset h
  simp [AssetData.no_history, hmin, hmax, hl]

/-! ### Codec round-trip lemmas -/

theorem charDigit_digitChar (d : ℕ) (h : d < 10) : charDigit (digitChar d) = some d := by
  interval_cases d <;> decide

theorem digitChar_ne_dash (d : ℕ) (h : d < 10) : digitChar d ≠ '-' := by
  interval_cases d <;> decide

theorem charsToNatAux_append (acc : ℕ) (xs ys : List Char) :
    charsToNatAux acc (xs ++ ys) =
      (charsToNatAux acc xs).bind (fun a => charsToNatAux a ys) := by
  induction xs generalizing acc with
  | nil => simp [charsToNatAux]
  | cons c cs ih =>
    simp only [List.cons_append, charsToNatAux]
    cases charDigit c with
    | none => simp
    | some d => simp [ih]

/-- Parsing the rendered digits of `n` from accumulator `acc` shifts the
accumulator past those digits and adds `n`. -/
theorem charsToNatAux_natToChars (n : ℕ) : ∀ acc : ℕ,
    charsToNatAux acc (natToChars n) =
      some (acc * 10 ^ (natToChars n).length + n) := by
  induction n using Nat.strong_induction_on with
  | _ n ih =>
    intro acc
    by_cases h : n < 10
    · rw [natToChars]
      simp [h, charsToNatAux, charDigit_digitChar n h]
    · rw [natToChars]
      simp only [h, dite_false, if_neg]
      have hd : n / 10 < n := Nat.div_lt_self (by omega) (by omega)
      rw [charsToNatAux_append]
      rw [ih (n / 10) hd acc]
      simp only [charsToNatAux, charDigit_digitChar (n % 10) (Nat.mod_lt n (by omega))]
      rw [List.length_append]
      simp only [List.length_singleton, Option.some_bind]
      congr 1
      rw [pow_succ, ← mul_assoc]
      have hmod := Nat.div_add_mod n 10
      generalize acc * 10 ^ (natToChars (n / 10)).length = M
      omega

/-- The rendered digits always start with a digit character. -/
theorem natToChars_head (n : ℕ) :
    ∃ d l, natToChars n = digitChar d :: l ∧ d < 10 := by
  induction n using Nat.strong_induction_on with
  | _ n ih =>
    by_cases h : n < 10
    · exact ⟨n, [], by rw [natToChars]; simp [h], h⟩
    · obtain ⟨d, l, hl, hd⟩ := ih (n / 10) (Nat.div_lt_self (by omega) (by omega))
      refine ⟨d, l ++ [digitChar (n % 10)], ?_, hd⟩
      rw [natToChars]
      simp [h, hl]

/-- The digit string of `n` parses back to `n`. -/
theorem charsToNat_natToChars (n : ℕ) : charsToNat (natToChars n) = some n := by
  obtain ⟨d, l, hl, _⟩ := natToChars_head n
  rw [hl]
  show charsToNatAux 0 (digitChar d :: l) = some n
  rw [← hl, charsToNatAux_natToChars]
  simp

/-- Defining equation of `strToInstant` on an explicit cons string. -/
theorem strToInstant_cons (c : Char) (rest : List Char) :
    strToInstant (String.mk (c :: rest)) =
      if c = '-' then Option.map (fun n => -(n : ℤ)) (charsToNat rest)
      else Option.map (fun n => (n : ℤ)) (charsToNat (c :: rest)) := rfl

/-- The instant codec round-trips. -/
theorem strToInstant_instantToStr (i : ℤ) : strToInstant (instantToStr i) = some i := by
  by_cases h : i < 0
  · rw [instantToStr, if_pos h, strToInstant_cons, if_pos rfl, charsToNat_natToChars]
    show some (-(i.natAbs : ℤ)) = some i
    congr 1
    omega
  · obtain ⟨d, l, hl, hd⟩ := natToChars_head i.natAbs
    rw [instantToStr, if_neg h, hl, strToInstant_cons,
      if_neg (digitChar_ne_dash d hd), ← hl, charsToNat_natToChars]
    show some ((i.natAbs : ℤ)) = some i
    congr 1
    omega

/-- Converting a mode to its integer value and back is the identity. -/
theorem AssetMode.ofValue_value (m : AssetMode) : AssetMode.ofValue m.value = some m := by
  cases m <;> rfl

/-- A serialized price data point parses back to itself. -/
theorem pdp_parse_make (p : PriceDataPoint) :
    PriceDataPoint.json_parse p.json_make = some p := by
  simp [PriceDataPoint.json_make, PriceDataPoint.json_parse, objGet, List.find?,
    strToInstant_instantToStr]

/-- A serialized list of price data points parses back to itself. -/
theorem parsePdpList_map (l : List PriceDataPoint) :
    parsePdpList (l.map PriceDataPoint.json_make) = some l := by
  induction l with
  | nil => rfl
  | cons p rest ih =>
    simp [parsePdpList, PriceDataPoint.json_make, JVal.isNull, ih]
    rw [show JVal.jobj [("price", JVal.jnum p.price),
      ("timestamp", JVal.jstr (instantToStr p.timestamp)),
      ("quantity", JVal.jnum p.quantity)] = p.json_make from rfl, pdp_parse_make]

/-- A serialized asset data parses back to itself (in particular the
`ValueError` branch is never reached from `json_make` outputs, whose mode
value is always a valid enum member). -/
theorem assetdata_parse_make (ad : AssetData) :
    AssetData.json_parse ad.json_make = .ok (some ad) := by
  obtain ⟨⟨s, n, q, ph⟩, md, th⟩ := ad
  simp [AssetData.json_make, AssetData.json_parse, Asset.json_parse, Asset.json_fields,
    objGet, List.find?, json_check_keys, parsePdpList_map, AssetMode.ofValue_value, JVal.ty]

/-- Reading back a freshly written path returns the written content. -/
theorem fsGet_fsSet (fs : FS) (p : String) (v : Option JVal) :
    fsGet (fsSet fs p v) p = some v := by
  induction fs with
  | nil => simp [fsSet, fsGet, List.find?]
  | cons e rest ih =>
    by_cases h : e.1 == p
    · simp [fsSet, h, fsGet, List.find?]
    · simp only [fsSet, h, if_false, Bool.false_eq_true]
      simp only [fsGet, List.find?, h]
      exact ih

/-- With no recorded price point, the tick step raises (line 199). -/
theorem stepAsset_latest_none (cfg : Config) (now : ℤ) (ad : AssetData)
    (hl : ad.asset.phistory_latest = none) :
    stepAsset cfg now ad = .raise "AttributeError: NoneType object has no attribute value" := by
  unfold stepAsset
  rw [hl]

/-- A transaction within the cooldown window skips the asset. -/
theorem stepAsset_cooldown (cfg : Config) (now : ℤ) (ad : AssetData) (acurr ltr : PriceDataPoint)
    (hl : ad.asset.phistory_latest = some acurr)
    (htr : ad.thistory_latest = some ltr)
    (hc : now - ltr.timestamp_total_seconds < cfg.order_cooldown) :
    stepAsset cfg now ad = .skipCooldown := by
  unfold stepAsset
  rw [hl]
  simp [htr, hc]

/-- With history present and no blocking cooldown, the step runs the
decision stage on the position ratio. -/
theorem stepAsset_decides (cfg : Config) (now : ℤ) (ad : AssetData) (acurr : PriceDataPoint)
    (hl : ad.asset.phistory_latest = some acurr)
    (hcool : ∀ ltr, ad.thistory_latest = some ltr →
      cfg.order_cooldown ≤ now - ltr.timestamp_total_seconds) :
    stepAsset cfg now ad = decide_action cfg ad acurr (ad.ptm acurr) := by
  unfold stepAsset
  rw [hl]
  rcases htr : ad.thistory_latest with _ | ltr
  · simp
  · have := hcool ltr htr
    simp [not_lt_of_le this]

/-- Every outcome of the decision stage is a decision. -/
theorem decide_action_isDecision (cfg : Config) (ad : AssetData)
    (acurr : PriceDataPoint) (ptm : ℚ) :
    (decide_action cfg ad acurr ptm).isDecision = true := by
  simp only [decide_action]
  split_ifs <;> rfl

/-- Quantity zero takes the bootstrap-buy branch. -/
theorem decide_action_bootstrap (cfg : Config) (ad : AssetData) (acurr : PriceDataPoint) (ptm : ℚ)
    (hq : ad.asset.quantity = 0) :
    decide_action cfg ad acurr ptm = .buy 1 := by
  simp only [decide_action]
  rw [if_pos (le_of_eq hq), if_pos (Or.inr hq)]

/-- The threshold-buy branch and its sizing. -/
theorem decide_action_buy (cfg : Config) (ad : AssetData) (acurr : PriceDataPoint) (ptm : ℚ)
    (hq : 0 < ad.asset.quantity) (hb : ptm ≤ 1/2 - cfg.thresh_buy) :
    decide_action cfg ad acurr ptm =
      .buy (max 1 ((1 - ptm / (1/2 - cfg.thresh_buy)) * cfg.base_buy)) := by
  simp only [decide_action]
  rw [if_neg (not_le_of_lt hq), if_pos hb, pymax_eq]

/-- The threshold-sell branch: cent-rounded sizing with dust
suppression. -/
theorem decide_action_sell (cfg : Config) (ad : AssetData) (acurr : PriceDataPoint) (ptm : ℚ)
    (hq : 0 < ad.asset.quantity) (hnb : ¬ (ptm ≤ 1/2 - cfg.thresh_buy))
    (hs : ptm ≥ 1/2 + cfg.thresh_sell) :
    decide_action cfg ad acurr ptm =
      (if max 0 (round2 (min (acurr.value * ad.asset.quantity)
            ((ptm - (1/2 + cfg.thresh_sell)) / (1 - (1/2 + cfg.thresh_sell)) * cfg.base_buy)
          - 1)) = 0
       then Decision.holdSmallSell
       else Decision.sell (max 0 (round2 (min (acurr.value * ad.asset.quantity)
            ((ptm - (1/2 + cfg.thresh_sell)) / (1 - (1/2 + cfg.thresh_sell)) * cfg.base_buy)
          - 1)))) := by
  simp only [decide_action]
  rw [if_neg (not_le_of_lt hq), if_neg hnb, if_pos hs, pymin_eq, pymax_eq]

/-- C1: on a tracked asset with no recorded price history (the fresh
asset that `retrieve_assets` itself constructs for an unknown symbol),
`no_history` is true, but the tick does not skip the threshold math and
permit a bootstrap buy: the unconditional `vsum += acurr.value() *
ad.asset.quantity` at line 199 of `thresh.py` dereferences `None` and the
tick raises an uncaught `AttributeError`, contradicting the claim that
every fallible step reports failure through the explicit result type. -/
theorem c1_no_history_tick_raises :
    stepAsset ⟨20, 1/100, 1/100, 43200⟩ 0 ⟨⟨"ABC", "ABC", 0, []⟩, AssetMode.UNKNOWN, []⟩
      = Decision.raise "AttributeError: NoneType object has no attribute value"
  ∧ (⟨⟨"ABC", "ABC", 0, []⟩, AssetMode.UNKNOWN, []⟩ : AssetData).no_history = true
  ∧ retrieve_one "w" [] [] "ABC" =
      .ok (⟨⟨"ABC", "ABC", 0, []⟩, AssetMode.UNKNOWN, []⟩,
        AssetData.save ⟨⟨"ABC", "ABC", 0, []⟩, AssetMode.UNKNOWN, []⟩ "w" []) :=
  ⟨rfl, rfl, rfl⟩

/-- C2 counterexample: an asset with quantity 0 whose latest transaction
is 10 seconds old (cooldown 43200 s) is skipped by the cooldown gate and
receives no bootstrap $1.00 BUY this tick, so the claim as stated (every
quantity-0 asset always receives the $1.00 BUY) is false. -/
theorem c2_cooldown_blocks_bootstrap :
    stepAsset ⟨20, 1/100, 1/100, 43200⟩ 100000
        ⟨⟨"AAPL", "AAPL", 0, [⟨100, 1, 1⟩]⟩, AssetMode.UNKNOWN, [⟨100, 99990, 1⟩]⟩
      = Decision.skipCooldown
  ∧ (⟨⟨"AAPL", "AAPL", 0, [⟨100, 1, 1⟩]⟩, AssetMode.UNKNOWN,
      [⟨100, 99990, 1⟩]⟩ : AssetData).asset.quantity = 0
  ∧ ∀ amt : ℚ, Decision.skipCooldown ≠ Decision.buy amt := by
  refine ⟨rfl, rfl, fun amt h => Decision.noConfusion h⟩

/-- C2 (amended): for every tracked asset with held quantity 0 whose
price history is nonempty (otherwise the tick raises, see C1) and that is
not blocked by the order cooldown, the tick places a fixed-size bootstrap
BUY order of exactly $1.00, regardless of the configured threshold
values. -/
theorem c2_bootstrap_buy (cfg : Config) (now : ℤ) (ad : AssetData)
    (hq : ad.asset.quantity = 0) (hh : ad.asset.phistory ≠ [])
    (hcool : ∀ ltr, ad.thistory_latest = some ltr →
      cfg.order_cooldown ≤ now - ltr.timestamp_total_seconds) :
    stepAsset cfg now ad = Decision.buy 1 := by
  obtain ⟨acurr, hl⟩ := phistory_latest_isSome ad.asset hh
  rw [stepAsset_decides cfg now ad acurr hl hcool, decide_action_bootstrap cfg ad acurr _ hq]

/-- C2 witness: a concrete quantity-0 asset with one price point and no
prior transaction receives the $1.00 BUY. -/
theorem c2_bootstrap_buy_witness :
    stepAsset ⟨20, 1/100, 1/100, 43200⟩ 0
      ⟨⟨"AAPL", "AAPL", 0, [⟨100, 1, 1⟩]⟩, AssetMode.UNKNOWN, []⟩ = Decision.buy 1 :=
  c2_bootstrap_buy _ _ _ rfl (by simp) (fun ltr h => by simp [AssetData.thistory_latest] at h)

/-- C3: for every asset with at least one recorded transaction and a
nonempty price history, with `order_cooldown = T`: if `now` minus the
latest transaction's timestamp is less than `T` the tick skips the asset
(no decision, no order); otherwise the asset reaches the decision stage
and is never cooldown-skipped. -/
theorem c3_cooldown_gate (cfg : Config) (now : ℤ) (ad : AssetData) (ltr : PriceDataPoint)
    (htr : ad.thistory_latest = some ltr) (hh : ad.asset.phistory ≠ []) :
    (now - ltr.timestamp_total_seconds < cfg.order_cooldown →
      stepAsset cfg now ad = Decision.skipCooldown)
  ∧ (cfg.order_cooldown ≤ now - ltr.timestamp_total_seconds →
      (stepAsset cfg now ad).isDecision = true ∧ stepAsset cfg now ad ≠ Decision.skipCooldown) := by
  obtain ⟨acurr, hl⟩ := phistory_latest_isSome ad.asset hh
  constructor
  · intro hc
    exact stepAsset_cooldown cfg now ad acurr ltr hl htr hc
  · intro hc
    rw [stepAsset_decides cfg now ad acurr hl
      (fun l hlr => by rw [htr] at hlr; cases hlr; exact hc)]
    refine ⟨decide_action_isDecision _ _ _ _, fun heq => ?_⟩
    have hdec := decide_action_isDecision cfg ad acurr (ad.ptm acurr)
    rw [heq] at hdec
    exact Bool.noConfusion hdec

/-- C3 witness: with `T = 10` and `now = 1000`, a transaction at
`now - T + 1 = 991` produces a cooldown skip, while one at
`now - T - 1 = 989` reaches a decision. -/
theorem c3_cooldown_gate_witness :
    stepAsset ⟨20, 1/100, 1/100, 10⟩ 1000
        ⟨⟨"A", "A", 1, [⟨100, 1, 1⟩]⟩, AssetMode.UNKNOWN, [⟨100, 991, 1⟩]⟩ = Decision.skipCooldown
  ∧ (stepAsset ⟨20, 1/100, 1/100, 10⟩ 1000
        ⟨⟨"A", "A", 1, [⟨100, 1, 1⟩]⟩, AssetMode.UNKNOWN, [⟨100, 989, 1⟩]⟩).isDecision = true := by
  constructor
  · exact (c3_cooldown_gate ⟨20, 1/100, 1/100, 10⟩ 1000
      ⟨⟨"A", "A", 1, [⟨100, 1, 1⟩]⟩, AssetMode.UNKNOWN, [⟨100, 991, 1⟩]⟩
      ⟨100, 991, 1⟩ rfl (by simp)).1 (by decide)
  · exact ((c3_cooldown_gate ⟨20, 1/100, 1/100, 10⟩ 1000
      ⟨⟨"A", "A", 1, [⟨100, 1, 1⟩]⟩, AssetMode.UNKNOWN, [⟨100, 989, 1⟩]⟩
      ⟨100, 989, 1⟩ rfl (by simp)).2 (by decide)).1

/-- C6: `percent_to_max` equals `(current − min) / (max − min)` when
`max ≠ min` and equals `0.0` when `max = min`; and for every `min < max`,
`percent_to_max ∈ [0, 1]` iff `current ∈ [min, max]`. -/
theorem c6_percent_to_max (mn mx curr : ℚ) :
    (mx = mn → percent_to_max mn mx curr = 0)
  ∧ (mx ≠ mn → percent_to_max mn mx curr = (curr - mn) / (mx - mn))
  ∧ (mn < mx →
      ((0 ≤ percent_to_max mn mx curr ∧ percent_to_max mn mx curr ≤ 1) ↔
        (mn ≤ curr ∧ curr ≤ mx))) := by
  refine ⟨fun h => by simp [percent_to_max, h], fun h => by simp [percent_to_max, h],
    fun h => ?_⟩
  have hne : mx ≠ mn := ne_of_gt h
  have hd : 0 < mx - mn := by linarith
  rw [percent_to_max, if_pos hne]
  constructor
  · rintro ⟨h0, h1⟩
    have ha : 0 ≤ curr - mn := by
      by_contra hn
      push_neg at hn
      have : (curr - mn) / (mx - mn) < 0 := div_neg_of_neg_of_pos hn hd
      linarith
    have hb : curr - mn ≤ mx - mn := (div_le_one hd).mp h1
    constructor <;> linarith
  · rintro ⟨h0, h1⟩
    exact ⟨div_nonneg (by linarith) (le_of_lt hd), (div_le_one hd).mpr (by linarith)⟩

/-- C6 witness: the three parts at concrete values. -/
theorem c6_percent_to_max_witness :
    percent_to_max 3 3 5 = 0
  ∧ percent_to_max 0 2 1 = (1 - 0) / (2 - 0)
  ∧ ((0 ≤ percent_to_max 0 2 1 ∧ percent_to_max 0 2 1 ≤ 1) ↔ ((0:ℚ) ≤ 1 ∧ (1:ℚ) ≤ 2)) :=
  ⟨(c6_percent_to_max 3 3 5).1 rfl, (c6_percent_to_max 0 2 1).2.1 (by norm_num), (c6_percent_to_max 0 2 1).2.2 (by norm_num)⟩

/-- C5 (amended): whenever the asset is held (quantity > 0), has price
history, passes the cooldown gate, and
`percent_to_max ≤ 0.5 − thresh_buy`, the tick places a BUY order sized
`max(1.0, (1 − percent_to_max/(0.5 − thresh_buy)) × base_buy)`. -/
theorem c5_buy_sizing (cfg : Config) (now : ℤ) (ad : AssetData) (acurr : PriceDataPoint)
    (hq : 0 < ad.asset.quantity) (hl : ad.asset.phistory_latest = some acurr)
    (hcool : ∀ ltr, ad.thistory_latest = some ltr →
      cfg.order_cooldown ≤ now - ltr.timestamp_total_seconds)
    (hbuy : ad.ptm acurr ≤ 1/2 - cfg.thresh_buy) :
    stepAsset cfg now ad =
      Decision.buy (max 1 ((1 - ad.ptm acurr / (1/2 - cfg.thresh_buy)) * cfg.base_buy)) := by
  rw [stepAsset_decides cfg now ad acurr hl hcool, decide_action_buy cfg ad acurr _ hq hbuy]

/-- C5 witness: with base_buy = 20, thresh_buy = 0.01 and history
min = $90, max = $110, current = $91, the buy amount is exactly 880/49,
within $0.01 of $17.96 (the spec's scenario value 19.39 is an arithmetic
slip, see the counterexample). -/
theorem c5_buy_sizing_witness :
    stepAsset ⟨20, 1/100, 1/100, 43200⟩ 0
        ⟨⟨"AAPL", "AAPL", 1, [⟨90, 1, 1⟩, ⟨110, 2, 1⟩, ⟨91, 3, 1⟩]⟩, AssetMode.UNKNOWN, []⟩
      = Decision.buy (880/49)
  ∧ (1796/100 : ℚ) - 1/100 ≤ 880/49 ∧ (880/49 : ℚ) ≤ 1796/100 + 1/100 := by
  have hptm : (⟨⟨"AAPL", "AAPL", 1, [⟨90, 1, 1⟩, ⟨110, 2, 1⟩, ⟨91, 3, 1⟩]⟩,
      AssetMode.UNKNOWN, []⟩ : AssetData).ptm ⟨91, 3, 1⟩ = 1/20 := by
    norm_num [AssetData.ptm, AssetData.no_history, percent_to_max, Asset.phistory_min,
      Asset.phistory_max, Asset.phistory_latest, PriceDataPoint.value, List.foldl,
      List.getLast?]
  have h := c5_buy_sizing ⟨20, 1/100, 1/100, 43200⟩ 0
    ⟨⟨"AAPL", "AAPL", 1, [⟨90, 1, 1⟩, ⟨110, 2, 1⟩, ⟨91, 3, 1⟩]⟩, AssetMode.UNKNOWN, []⟩
    ⟨91, 3, 1⟩ (by norm_num) (by simp [Asset.phistory_latest, List.getLast?])
    (fun ltr hlr => by simp [AssetData.thistory_latest] at hlr)
    (by rw [hptm]; norm_num)
  refine ⟨?_, by norm_num, by norm_num⟩
  rw [h, hptm]
  norm_num [max_def]

/-- C4 (amended): whenever the asset is held (quantity > 0), has price
history, passes the cooldown gate, thresholds are positive, and
`percent_to_max ≥ 0.5 + thresh_sell`, the tick computes
`s1 = min(current value held, multiplier × base_buy)` with
`multiplier = (ptm − (0.5+thresh_sell)) / (1 − (0.5+thresh_sell))`, then
`s2 = max 0 (round2 (s1 − 1))` — the $1.00 subtraction rounded to the
nearest cent and floored at $0.00; the order is suppressed exactly when
`s2 = 0`, and the amount of any placed sell order never exceeds the
currently held value. -/
theorem c4_sell_sizing (cfg : Config) (now : ℤ) (ad : AssetData) (acurr : PriceDataPoint) (s1 s2 : ℚ)
    (hq : 0 < ad.asset.quantity) (hl : ad.asset.phistory_latest = some acurr)
    (hcool : ∀ ltr, ad.thistory_latest = some ltr →
      cfg.order_cooldown ≤ now - ltr.timestamp_total_seconds)
    (htb : 0 < cfg.thresh_buy) (hts : 0 < cfg.thresh_sell)
    (hsell : ad.ptm acurr ≥ 1/2 + cfg.thresh_sell)
    (hs1 : s1 = min (acurr.value * ad.asset.quantity)
      ((ad.ptm acurr - (1/2 + cfg.thresh_sell)) / (1 - (1/2 + cfg.thresh_sell)) * cfg.base_buy))
    (hs2 : s2 = max 0 (round2 (s1 - 1))) :
    (s2 = 0 → stepAsset cfg now ad = Decision.holdSmallSell)
  ∧ (s2 ≠ 0 → stepAsset cfg now ad = Decision.sell s2)
  ∧ (∀ amt, stepAsset cfg now ad = Decision.sell amt →
      amt ≤ acurr.value * ad.asset.quantity) := by
  have hnb : ¬(ad.ptm acurr ≤ 1/2 - cfg.thresh_buy) := by
    push_neg
    linarith
  rw [stepAsset_decides cfg now ad acurr hl hcool,
    decide_action_sell cfg ad acurr _ hq hnb hsell, ← hs1, ← hs2]
  refine ⟨fun h0 => by rw [if_pos h0], fun h0 => by rw [if_neg h0], fun amt hamt => ?_⟩
  by_cases h0 : s2 = 0
  · rw [if_pos h0] at hamt
    exact Decision.noConfusion hamt
  · rw [if_neg h0] at hamt
    have hr := round2_le (s1 - 1)
    have hmin : s1 ≤ acurr.value * ad.asset.quantity := hs1 ▸ min_le_left _ _
    rcases le_or_lt (round2 (s1 - 1)) 0 with hc | hc
    · exact absurd (hs2.trans (max_eq_left hc)) h0
    · have hs2r : s2 = round2 (s1 - 1) := hs2.trans (max_eq_right (le_of_lt hc))
      have hamt2 : amt = s2 := by
        injection hamt with h
        exact h.symm
      rw [hamt2, hs2r]
      linarith

/-- C4 counterexample: at a concrete held asset with history min 100,
max 200, current 175.73 and quantity 10, the placed sell amount is $9.09
(the code rounds `sell_amount - 1.0` to cents), while the claim's formula
`min(held, multiplier * base_buy) - 1` gives 2228/245 = 9.0938…, so the
claim's stated computation is off by the cent rounding. -/
theorem c4_sell_amount_rounded :
    stepAsset ⟨20, 1/100, 1/100, 43200⟩ 0
        ⟨⟨"AAPL", "AAPL", 10, [⟨100, 1, 1⟩, ⟨200, 2, 1⟩, ⟨17573/100, 3, 1⟩]⟩,
          AssetMode.UNKNOWN, []⟩
      = Decision.sell (909/100)
  ∧ min ((17573/100 : ℚ) * 10)
      ((percent_to_max 100 200 (17573/100) - (1/2 + 1/100)) / (1 - (1/2 + 1/100)) * 20) - 1
      = 2228/245
  ∧ (909/100 : ℚ) ≠ 2228/245 := by
  refine ⟨?_, ?_, by norm_num⟩
  · norm_num [stepAsset, decide_action, AssetData.ptm, AssetData.no_history, percent_to_max,
      Asset.phistory_min, Asset.phistory_max, Asset.phistory_latest, AssetData.thistory_latest,
      PriceDataPoint.value, pymin, pymax, round2, roundHalfEven, floorQ_eq, List.foldl,
      List.getLast?]
  · rw [min_def]
    norm_num [percent_to_max]

/-- C7: serializing any `AssetData` with `json_make` and parsing the
result with `json_parse` succeeds and yields an `AssetData` equal to the
original in symbol, quantity, mode, and every price-history and
transaction-history entry. -/
theorem c7_json_roundtrip (ad : AssetData) :
    ∃ ad2, AssetData.json_parse (AssetData.json_make ad) = .ok (some ad2)
      ∧ ad2.asset.symbol = ad.asset.symbol
      ∧ ad2.asset.quantity = ad.asset.quantity
      ∧ ad2.mode = ad.mode
      ∧ ad2.asset.phistory = ad.asset.phistory
      ∧ ad2.thistory = ad.thistory :=
  ⟨ad, assetdata_parse_make ad, rfl, rfl, rfl, rfl, rfl⟩

/-- A non-null transaction entry that fails to parse fails the whole
list. -/
theorem parsePdpList_bad_entry (th : List JVal) (v : JVal) (hm : v ∈ th) (hn : v.isNull = false)
    (hp : PriceDataPoint.json_parse v = none) : parsePdpList th = none := by
  induction th with
  | nil => cases hm
  | cons w rest ih =>
    rcases List.mem_cons.mp hm with rfl | hm2
    · simp [parsePdpList, hn, hp]
    · by_cases hw : w.isNull
      · simp [parsePdpList, hw, ih hm2]
      · simp only [parsePdpList, hw, if_false, Bool.false_eq_true]
        cases PriceDataPoint.json_parse w <;> simp [ih hm2]


/-- Defining equation of `AssetData.json_parse` on an object. -/
theorem AssetData.json_parse_jobj_eq (l : List (String × JVal)) :
    AssetData.json_parse (JVal.jobj l) =
      (match Asset.json_parse (JVal.jobj l) with
       | none => .ok none
       | some a =>
         if json_check_keys l [("mode", JTy.int), ("thistory", JTy.arr)] then
           match objGet l "mode", objGet l "thistory" with
           | some (JVal.jint m), some (JVal.jarr th) =>
             match AssetMode.ofValue m with
             | some md => .ok (Option.map (fun ts => (⟨a, md, ts⟩ : AssetData)) (parsePdpList th))
             | none => .raise "ValueError: invalid AssetMode value"
           | _, _ => .ok none
         else .ok none) := rfl

/-- C8 (amended): `AssetData.load` returns the parsed `AssetData` in a
success result; when the file cannot be read (including when it does not
exist) it returns the read failure — an ordinary `IR` failure, not a
distinguished non-error NotFound; it returns a failure when the document
is malformed JSON, when the `mode` (integer) or `thistory` (sequence) key
is missing or mistyped, or when a non-null transaction entry fails to
parse while the mode value is a valid enum member; and a well-typed
integer mode outside the enum values instead makes `json_parse` raise an
uncaught `ValueError` (thresh.py line 104), which `load` propagates
rather than turning into a result. -/
theorem c8_load_results (symbol dpath : String) (fs : FS) (j : JVal) (ad : AssetData) :
    (fsGet fs (asset_fpath symbol dpath) = none →
      AssetData.load symbol dpath fs =
        .ok ⟨false, "failed to read from file (" ++ asset_fpath symbol dpath ++ ")", none⟩)
  ∧ (fsGet fs (asset_fpath symbol dpath) = some none →
      AssetData.load symbol dpath fs =
        .ok ⟨false, "failed to parse JSON data from file: " ++ asset_fpath symbol dpath, none⟩)
  ∧ (fsGet fs (asset_fpath symbol dpath) = some (some j) →
      AssetData.json_parse j = .ok none →
      AssetData.load symbol dpath fs =
        .ok ⟨false, "failed to parse AssetData from file: " ++ asset_fpath symbol dpath, none⟩)
  ∧ (fsGet fs (asset_fpath symbol dpath) = some (some j) →
      AssetData.json_parse j = .ok (some ad) →
      AssetData.load symbol dpath fs = .ok ⟨true, "", some ad⟩)
  ∧ (∀ msg, fsGet fs (asset_fpath symbol dpath) = some (some j) →
      AssetData.json_parse j = PyResult.raise msg →
      AssetData.load symbol dpath fs = PyResult.raise msg)
  ∧ (∀ l, json_check_keys l [("mode", JTy.int), ("thistory", JTy.arr)] = false →
      AssetData.json_parse (JVal.jobj l) = .ok none)
  ∧ (∀ l th v m md, objGet l "mode" = some (JVal.jint m) →
      AssetMode.ofValue m = some md →
      objGet l "thistory" = some (JVal.jarr th) → v ∈ th → v.isNull = false →
      PriceDataPoint.json_parse v = none →
      AssetData.json_parse (JVal.jobj l) = .ok none)
  ∧ (∀ l m a, Asset.json_parse (JVal.jobj l) = some a →
      json_check_keys l [("mode", JTy.int), ("thistory", JTy.arr)] = true →
      objGet l "mode" = some (JVal.jint m) → AssetMode.ofValue m = none →
      AssetData.json_parse (JVal.jobj l) =
        PyResult.raise "ValueError: invalid AssetMode value") := by
  refine ⟨fun h => by simp [AssetData.load, h], fun h => by simp [AssetData.load, h],
    fun h hp => by simp [AssetData.load, h, hp], fun h hp => by simp [AssetData.load, h, hp],
    fun msg h hp => by simp [AssetData.load, h, hp],
    fun l hck => ?_, fun l th v m md hm2 hmd hth hm hn hp => ?_,
    fun l m a hA hck hm2 hmd => ?_⟩
  · rcases hA : Asset.json_parse (JVal.jobj l) with _ | a
    · rw [AssetData.json_parse_jobj_eq, hA]
    · rw [AssetData.json_parse_jobj_eq, hA, hck]
      rfl
  · rcases hA : Asset.json_parse (JVal.jobj l) with _ | a
    · rw [AssetData.json_parse_jobj_eq, hA]
    · by_cases hck : json_check_keys l [("mode", JTy.int), ("thistory", JTy.arr)] = true
      · rw [AssetData.json_parse_jobj_eq, hA, hck]
        simp only [if_true]
        rw [hm2, hth]
        show (match AssetMode.ofValue m with
          | some md =>
            PyResult.ok (Option.map (fun ts => (⟨a, md, ts⟩ : AssetData)) (parsePdpList th))
          | none => PyResult.raise "ValueError: invalid AssetMode value") = .ok none
        rw [hmd, parsePdpList_bad_entry th v hm hn hp]
        rfl
      · rw [Bool.not_eq_true] at hck
        rw [AssetData.json_parse_jobj_eq, hA, hck]
        rfl
  · rw [AssetData.json_parse_jobj_eq, hA, hck]
    simp only [if_true]
    have hthist : ∃ th, objGet l "thistory" = some (JVal.jarr th) := by
      have hck2 := hck
      simp only [json_check_keys, List.all_cons, List.all_nil, Bool.and_eq_true,
        Bool.and_true] at hck2
      rcases hck2 with ⟨_, h2⟩
      rcases hv : objGet l "thistory" with _ | v
      · rw [hv] at h2
        exact absurd h2 (by simp)
      · rw [hv] at h2
        cases v <;> simp [JVal.ty] at h2 ⊢
    rcases hthist with ⟨th, hth2⟩
    rw [hm2, hth2]
    show (match AssetMode.ofValue m with
      | some md =>
        PyResult.ok (Option.map (fun ts => (⟨a, md, ts⟩ : AssetData)) (parsePdpList th))
      | none => PyResult.raise "ValueError: invalid AssetMode value") =
        PyResult.raise "ValueError: invalid AssetMode value"
    rw [hmd]

/-- C8 witness: concrete loads exercising the missing-file, malformed-
JSON, unparseable-document, success and raise-propagation branches, plus
parse failures for a missing `mode` key and a bad transaction entry, and
the raise on a well-typed out-of-range mode. -/
theorem c8_load_results_witness :
    AssetData.load "AAPL" "w" [] =
      .ok ⟨false, "failed to read from file (" ++ asset_fpath "AAPL" "w" ++ ")", none⟩
  ∧ AssetData.load "AAPL" "w" [(asset_fpath "AAPL" "w", none)] =
      .ok ⟨false, "failed to parse JSON data from file: " ++ asset_fpath "AAPL" "w", none⟩
  ∧ AssetData.load "AAPL" "w" [(asset_fpath "AAPL" "w", some (JVal.jarr []))] =
      .ok ⟨false, "failed to parse AssetData from file: " ++ asset_fpath "AAPL" "w", none⟩
  ∧ AssetData.load "AAPL" "w" [(asset_fpath "AAPL" "w", some (JVal.jobj
      [("symbol", JVal.jstr "A"), ("name", JVal.jstr "A"), ("quantity", JVal.jnum 0),
       ("phistory", JVal.jarr []), ("mode", JVal.jint (-1)), ("thistory", JVal.jarr [])]))] =
      .ok ⟨true, "", some ⟨⟨"A", "A", 0, []⟩, AssetMode.UNKNOWN, []⟩⟩
  ∧ AssetData.load "AAPL" "w" [(asset_fpath "AAPL" "w", some (JVal.jobj
      [("symbol", JVal.jstr "A"), ("name", JVal.jstr "A"), ("quantity", JVal.jnum 0),
       ("phistory", JVal.jarr []), ("mode", JVal.jint 2), ("thistory", JVal.jarr [])]))] =
      PyResult.raise "ValueError: invalid AssetMode value"
  ∧ AssetData.json_parse (JVal.jobj [("symbol", JVal.jstr "A"), ("name", JVal.jstr "A"),
      ("quantity", JVal.jnum 0), ("phistory", JVal.jarr []),
      ("thistory", JVal.jarr [])]) = .ok none
  ∧ AssetData.json_parse (JVal.jobj [("symbol", JVal.jstr "A"), ("name", JVal.jstr "A"),
      ("quantity", JVal.jnum 0), ("phistory", JVal.jarr []), ("mode", JVal.jint (-1)),
      ("thistory", JVal.jarr [JVal.jint 5])]) = .ok none
  ∧ AssetData.json_parse (JVal.jobj [("symbol", JVal.jstr "A"), ("name", JVal.jstr "A"),
      ("quantity", JVal.jnum 0), ("phistory", JVal.jarr []), ("mode", JVal.jint 2),
      ("thistory", JVal.jarr [])]) =
      PyResult.raise "ValueError: invalid AssetMode value" := by
  refine ⟨(c8_load_results "AAPL" "w" [] (JVal.jarr []) ⟨⟨"A", "A", 0, []⟩, AssetMode.UNKNOWN, []⟩).1 rfl,
    (c8_load_results "AAPL" "w" _ (JVal.jarr []) ⟨⟨"A", "A", 0, []⟩, AssetMode.UNKNOWN, []⟩).2.1
      (by simp [fsGet, List.find?]),
    (c8_load_results "AAPL" "w" _ (JVal.jarr []) ⟨⟨"A", "A", 0, []⟩, AssetMode.UNKNOWN, []⟩).2.2.1
      (by simp [fsGet, List.find?]) rfl,
    (c8_load_results "AAPL" "w" _ (JVal.jobj
      [("symbol", JVal.jstr "A"), ("name", JVal.jstr "A"), ("quantity", JVal.jnum 0),
       ("phistory", JVal.jarr []), ("mode", JVal.jint (-1)), ("thistory", JVal.jarr [])])
      ⟨⟨"A", "A", 0, []⟩, AssetMode.UNKNOWN, []⟩).2.2.2.1
      (by simp [fsGet, List.find?]) (by decide),
    (c8_load_results "AAPL" "w" _ (JVal.jobj
      [("symbol", JVal.jstr "A"), ("name", JVal.jstr "A"), ("quantity", JVal.jnum 0),
       ("phistory", JVal.jarr []), ("mode", JVal.jint 2), ("thistory", JVal.jarr [])])
      ⟨⟨"A", "A", 0, []⟩, AssetMode.UNKNOWN, []⟩).2.2.2.2.1
      "ValueError: invalid AssetMode value" (by simp [fsGet, List.find?]) rfl,
    (c8_load_results "AAPL" "w" [] (JVal.jarr []) ⟨⟨"A", "A", 0, []⟩, AssetMode.UNKNOWN, []⟩).2.2.2.2.2.1
      _ (by decide),
    (c8_load_results "AAPL" "w" [] (JVal.jarr []) ⟨⟨"A", "A", 0, []⟩, AssetMode.UNKNOWN, []⟩).2.2.2.2.2.2.1
      _ [JVal.jint 5] (JVal.jint 5) (-1) AssetMode.UNKNOWN rfl rfl rfl (by simp) rfl rfl,
    (c8_load_results "AAPL" "w" [] (JVal.jarr []) ⟨⟨"A", "A", 0, []⟩, AssetMode.UNKNOWN, []⟩).2.2.2.2.2.2.2
      _ 2 ⟨"A", "A", 0, []⟩ rfl rfl rfl rfl⟩

/-- C9: when the external `send_order` call fails, `place_order` returns
null and the state is unchanged: no transaction-history entry is appended
and nothing is written to disk for that asset by this call. -/
theorem c9_place_order_failure_pure (wd : String) (apiRes : IR Fill) (now : ℤ) (ad : AssetData) (fs : FS)
    (h : apiRes.success = false) :
    place_order wd apiRes now ad fs = (none, ad, fs) := by
  simp [place_order, h]

/-- C9 witness: a concrete failed order leaves the asset data and the
filesystem untouched. -/
theorem c9_place_order_failure_witness :
    place_order "w" ⟨false, "order failed", none⟩ 0
      ⟨⟨"A", "A", 1, []⟩, AssetMode.UNKNOWN, []⟩ [] =
      (none, ⟨⟨"A", "A", 1, []⟩, AssetMode.UNKNOWN, []⟩, []) :=
  c9_place_order_failure_pure "w" ⟨false, "order failed", none⟩ 0 ⟨⟨"A", "A", 1, []⟩, AssetMode.UNKNOWN, []⟩ [] rfl

/-- C10 counterexample: a tracked symbol whose on-disk document fails
AssetData parsing with a well-typed integer mode outside the enum (here
2) does not get a fresh overwrite: `json_parse` raises the `ValueError`,
the per-symbol body never runs (no `AssetData` is constructed, nothing is
saved), and the exception propagates out of `retrieve_assets`, leaving
the file intact. -/
theorem c10_raise_preserves_file :
    AssetData.json_parse (JVal.jobj [("symbol", JVal.jstr "AAPL"),
        ("name", JVal.jstr "AAPL"), ("quantity", JVal.jnum 0), ("phistory", JVal.jarr []),
        ("mode", JVal.jint 2), ("thistory", JVal.jarr [])]) =
      PyResult.raise "ValueError: invalid AssetMode value"
  ∧ retrieve_one "w" [] [(asset_fpath "AAPL" "w", some (JVal.jobj
        [("symbol", JVal.jstr "AAPL"), ("name", JVal.jstr "AAPL"),
         ("quantity", JVal.jnum 0), ("phistory", JVal.jarr []),
         ("mode", JVal.jint 2), ("thistory", JVal.jarr [])]))] "AAPL" =
      PyResult.raise "ValueError: invalid AssetMode value"
  ∧ ∀ r : AssetData × FS, retrieve_one "w" [] [(asset_fpath "AAPL" "w", some (JVal.jobj
        [("symbol", JVal.jstr "AAPL"), ("name", JVal.jstr "AAPL"),
         ("quantity", JVal.jnum 0), ("phistory", JVal.jarr []),
         ("mode", JVal.jint 2), ("thistory", JVal.jarr [])]))] "AAPL" ≠ PyResult.ok r := by
  have hload : AssetData.load "AAPL" "w" [(asset_fpath "AAPL" "w", some (JVal.jobj
      [("symbol", JVal.jstr "AAPL"), ("name", JVal.jstr "AAPL"),
       ("quantity", JVal.jnum 0), ("phistory", JVal.jarr []),
       ("mode", JVal.jint 2), ("thistory", JVal.jarr [])]))] =
      PyResult.raise "ValueError: invalid AssetMode value" := by
    simp [AssetData.load, fsGet, List.find?]
    rfl
  have hone : retrieve_one "w" [] [(asset_fpath "AAPL" "w", some (JVal.jobj
      [("symbol", JVal.jstr "AAPL"), ("name", JVal.jstr "AAPL"),
       ("quantity", JVal.jnum 0), ("phistory", JVal.jarr []),
       ("mode", JVal.jint 2), ("thistory", JVal.jarr [])]))] "AAPL" =
      PyResult.raise "ValueError: invalid AssetMode value" := by
    rw [retrieve_one, hload]
  exact ⟨rfl, hone, fun r h => by rw [hone] at h; exact PyResult.noConfusion h⟩

/-- C10 (amended): for a tracked symbol whose `load` returns an ordinary
failure result (file missing, unreadable, malformed JSON, or a parse
failure short of the mode `ValueError`), the per-symbol body of
`retrieve_assets` constructs a fresh `AssetData` — mode UNKNOWN, empty
transaction history, quantity from the live account snapshot or 0 if the
symbol is absent there — and saves it, overwriting whatever file
previously existed at the symbol's path; `retrieve_assets` on a single
tracked symbol is exactly this body run on the snapshot filtered to the
tracked symbols; and when `load` raises instead, the body never runs and
the exception propagates (no overwrite, see the counterexample). -/
theorem c10_retrieve_fresh_overwrites (wd : String) (assets : List Asset) (fs : FS)
    (sym : String) (res : IR AssetData)
    (hload : AssetData.load sym wd fs = .ok res) (hfail : res.success = false) :
    (retrieve_body wd assets fs sym res).1.mode = AssetMode.UNKNOWN
  ∧ (retrieve_body wd assets fs sym res).1.thistory = []
  ∧ (retrieve_body wd assets fs sym res).1.asset.quantity =
      (match assets.find? (fun a => a.symbol == sym) with
       | some a => a.quantity
       | none => 0)
  ∧ fsGet (retrieve_body wd assets fs sym res).2 (asset_fpath sym wd) =
      some (some (AssetData.json_make (retrieve_body wd assets fs sym res).1))
  ∧ retrieve_one wd assets fs sym = .ok (retrieve_body wd assets fs sym res)
  ∧ retrieve_assets wd [sym] ⟨true, "", some assets⟩ fs =
      .ok (⟨true, "", some [(retrieve_body wd
            (assets.filter (fun a => [sym].contains a.symbol)) fs sym res).1]⟩,
        (retrieve_body wd (assets.filter (fun a => [sym].contains a.symbol)) fs sym res).2)
  ∧ (∀ fs2 msg, AssetData.load sym wd fs2 = PyResult.raise msg →
      retrieve_one wd assets fs2 sym = PyResult.raise msg) := by
  have hone : retrieve_body wd assets fs sym res =
      (match assets.find? (fun a => a.symbol == sym) with
       | some a => AssetData.make a
       | none => AssetData.make ⟨sym, sym, 0, []⟩,
       AssetData.save
        (match assets.find? (fun a => a.symbol == sym) with
         | some a => AssetData.make a
         | none => AssetData.make ⟨sym, sym, 0, []⟩) wd fs) := by
    rw [retrieve_body]
    simp only [hfail, Bool.false_eq_true, if_false]
    rcases hf : assets.find? (fun a => a.symbol == sym) with _ | a <;> rw [hf]
  have hpath : (match assets.find? (fun a : Asset => a.symbol == sym) with
      | some a => AssetData.make a
      | none => AssetData.make ⟨sym, sym, 0, []⟩).asset.symbol = sym := by
    rcases hf : assets.find? (fun a : Asset => a.symbol == sym) with _ | a
    · rfl
    · have h2 := List.find?_some hf
      simp only [beq_iff_eq] at h2
      simpa [AssetData.make] using h2
  have hro : retrieve_one wd assets fs sym = .ok (retrieve_body wd assets fs sym res) := by
    rw [retrieve_one, hload]
  refine ⟨?_, ?_, ?_, ?_, hro, ?_, fun fs2 msg hr => by rw [retrieve_one, hr]⟩
  · rw [hone]
    rcases hf : assets.find? (fun a => a.symbol == sym) with _ | a <;> rw [hf] <;> rfl
  · rw [hone]
    rcases hf : assets.find? (fun a => a.symbol == sym) with _ | a <;> rw [hf] <;> rfl
  · rw [hone]
    rcases hf : assets.find? (fun a => a.symbol == sym) with _ | a <;> rw [hf] <;> rfl
  · rw [hone]
    simp only [AssetData.save]
    rw [hpath]
    exact fsGet_fsSet fs _ _
  · have hroF : retrieve_one wd (assets.filter (fun a => [sym].contains a.symbol)) fs sym =
        .ok (retrieve_body wd (assets.filter (fun a => [sym].contains a.symbol)) fs sym res) := by
      rw [retrieve_one, hload]
    rw [retrieve_assets,
      if_neg (fun h => Bool.noConfusion
        (h : (⟨true, "", some assets⟩ : IR (List Asset)).success = false))]
    simp only [retrieve_loop, Option.getD_some]
    rw [hroF]
    rfl

/-- C10 witness: a malformed (unparseable-text) on-disk file for AAPL is
overwritten with a fresh AssetData carrying the live quantity 5. -/
theorem c10_retrieve_fresh_witness :
    retrieve_one "w" [⟨"AAPL", "Apple", 5, []⟩] [(asset_fpath "AAPL" "w", none)] "AAPL" =
      .ok (retrieve_body "w" [⟨"AAPL", "Apple", 5, []⟩] [(asset_fpath "AAPL" "w", none)] "AAPL"
        ⟨false, "failed to parse JSON data from file: " ++ asset_fpath "AAPL" "w", none⟩)
  ∧ (retrieve_body "w" [⟨"AAPL", "Apple", 5, []⟩] [(asset_fpath "AAPL" "w", none)] "AAPL"
        ⟨false, "failed to parse JSON data from file: " ++ asset_fpath "AAPL" "w", none⟩).1.mode
      = AssetMode.UNKNOWN
  ∧ (retrieve_body "w" [⟨"AAPL", "Apple", 5, []⟩] [(asset_fpath "AAPL" "w", none)] "AAPL"
        ⟨false, "failed to parse JSON data from file: " ++ asset_fpath "AAPL" "w", none⟩).1.thistory
      = []
  ∧ (retrieve_body "w" [⟨"AAPL", "Apple", 5, []⟩] [(asset_fpath "AAPL" "w", none)] "AAPL"
        ⟨false, "failed to parse JSON data from file: " ++ asset_fpath "AAPL" "w", none⟩).1.asset.quantity
      = 5
  ∧ fsGet (retrieve_body "w" [⟨"AAPL", "Apple", 5, []⟩] [(asset_fpath "AAPL" "w", none)] "AAPL"
        ⟨false, "failed to parse JSON data from file: " ++ asset_fpath "AAPL" "w", none⟩).2
        (asset_fpath "AAPL" "w") =
      some (some (AssetData.json_make
        (retrieve_body "w" [⟨"AAPL", "Apple", 5, []⟩] [(asset_fpath "AAPL" "w", none)] "AAPL"
          ⟨false, "failed to parse JSON data from file: " ++ asset_fpath "AAPL" "w", none⟩).1)) := by
  have h := c10_retrieve_fresh_overwrites "w" [⟨"AAPL", "Apple", 5, []⟩]
    [(asset_fpath "AAPL" "w", none)] "AAPL"
    ⟨false, "failed to parse JSON data from file: " ++ asset_fpath "AAPL" "w", none⟩
    (by simp [AssetData.load, fsGet, List.find?]) rfl
  exact ⟨h.2.2.2.2.1, h.1, h.2.1, by rw [h.2.2.1]; rfl, h.2.2.2.1⟩

/-- C4 witness: the concrete sell scenario places a $9.09 SELL, which
does not exceed the held value $1757.30. -/
theorem c4_sell_sizing_witness :
    stepAsset ⟨20, 1/100, 1/100, 43200⟩ 0
        ⟨⟨"AAPL", "AAPL", 10, [⟨100, 1, 1⟩, ⟨200, 2, 1⟩, ⟨17573/100, 3, 1⟩]⟩,
          AssetMode.UNKNOWN, []⟩
      = Decision.sell (909/100)
  ∧ (909/100 : ℚ) ≤ PriceDataPoint.value ⟨17573/100, 3, 1⟩ * 10 := by
  have hptm : (⟨⟨"AAPL", "AAPL", 10, [⟨100, 1, 1⟩, ⟨200, 2, 1⟩, ⟨17573/100, 3, 1⟩]⟩,
      AssetMode.UNKNOWN, []⟩ : AssetData).ptm ⟨17573/100, 3, 1⟩ = 7573/10000 := by
    norm_num [AssetData.ptm, AssetData.no_history, percent_to_max, Asset.phistory_min,
      Asset.phistory_max, Asset.phistory_latest, PriceDataPoint.value, List.foldl,
      List.getLast?]
  have h := c4_sell_sizing ⟨20, 1/100, 1/100, 43200⟩ 0
    ⟨⟨"AAPL", "AAPL", 10, [⟨100, 1, 1⟩, ⟨200, 2, 1⟩, ⟨17573/100, 3, 1⟩]⟩,
      AssetMode.UNKNOWN, []⟩
    ⟨17573/100, 3, 1⟩ (2473/245) (909/100)
    (by norm_num) (by simp [Asset.phistory_latest, List.getLast?])
    (fun ltr hlr => by simp [AssetData.thistory_latest] at hlr)
    (by norm_num) (by norm_num)
    (by rw [hptm]; norm_num)
    (by rw [hptm, min_def]; norm_num [PriceDataPoint.value])
    (by rw [max_def]; norm_num [round2, roundHalfEven, floorQ_eq])
  have hstep := h.2.1 (by norm_num)
  exact ⟨hstep, h.2.2 (909/100) hstep⟩

/-- C5 counterexample: at the spec's scenario (base_buy = 20, thresh_buy
= 0.01, history min = $90, max = $110, current = $91, asset held), the
code's buy amount is 880/49 ≈ 17.96, which is more than $0.50 away from
the claimed "approximately 19.39" — the spec's scenario value is an
arithmetic slip. -/
theorem c5_scenario_counterexample :
    stepAsset ⟨20, 1/100, 1/100, 43200⟩ 0
        ⟨⟨"AAPL", "AAPL", 1, [⟨90, 1, 1⟩, ⟨110, 2, 1⟩, ⟨91, 3, 1⟩]⟩, AssetMode.UNKNOWN, []⟩
      = Decision.buy (880/49)
  ∧ (880/49 : ℚ) < 1939/100 - 1/2 := by
  refine ⟨?_, by norm_num⟩
  norm_num [stepAsset, decide_action, AssetData.ptm, AssetData.no_history, percent_to_max,
    Asset.phistory_min, Asset.phistory_max, Asset.phistory_latest, AssetData.thistory_latest,
    PriceDataPoint.value, pymax, List.foldl, List.getLast?]

/-- C8 counterexample: loading a symbol whose file does not exist yields
a failure result (`success = false`, no data) of the same shape as a
parse failure — there is no distinguished non-error NotFound result. -/
theorem c8_missing_file_is_failure :
    AssetData.load "AAPL" "w" [] =
      .ok ⟨false, "failed to read from file (" ++ asset_fpath "AAPL" "w" ++ ")", none⟩
  ∧ AssetData.load "AAPL" "w" [(asset_fpath "AAPL" "w", none)] =
      .ok ⟨false, "failed to parse JSON data from file: " ++ asset_fpath "AAPL" "w", none⟩ := by
  refine ⟨rfl, ?_⟩
  simp [AssetData.load, fsGet, List.find?]
